import Mathlib

/-!
Verification of the Ciousten video-insights frontend core: the timeline
aggregators (`AnomalyTimeline`, `ActivityTrack`), the segmentation poll loop
of the annotate page, and the analysis gate.  Numbers that TypeScript holds
as `number` are embedded as `Int` (frame indices, progress) or `Rat`
(positions and widths, which arise from division); nullable values as
`Option`.
-/

namespace Ciousten

/-- Substring test on character lists: does `s` start with `pat`?
Embeds the leading-match step of JavaScript `String.prototype.includes`. -/
def leadMatch : List Char → List Char → Bool
  | _, [] => true
  | [], _ :: _ => false
  | c :: cs, p :: ps => c == p && leadMatch cs ps

/-- Substring containment on character lists: does `pat` occur contiguously in `s`? -/
def subMatch (s pat : List Char) : Bool :=
  match s with
  | [] => leadMatch [] pat
  | _ :: rest => leadMatch s pat || subMatch rest pat

/-- JavaScript `s.includes(pat)`: case-sensitive substring containment. -/
def jsIncludes (s pat : String) : Bool :=
  subMatch s.toList pat.toList

/-- `Anomaly` record from `src/unnamed/part_005` (lib/api). -/
structure Anomaly where
  frame_index : Int
  timestamp : Rat
  description : String
  severity : Int
deriving DecidableEq, Repr

/-- `Activity` record from `src/unnamed/part_005` (lib/api). -/
structure Activity where
  start_frame : Int
  end_frame : Int
  label : String
  confidence : Rat
deriving DecidableEq, Repr

/-- One marker div rendered by `AnomalyTimeline`: its CSS `left` offset in
percent and its tooltip title. -/
structure AnomalyMarker where
  position : Rat
  title : String
deriving DecidableEq, Repr

/-- `const position = (anomaly.frame_index / totalFrames) * 100;`
(src/frontend/components/AnomalyTimeline.tsx, line 27). -/
def anomalyPosition (totalFrames : Int) (a : Anomaly) : Rat :=
  ((a.frame_index : Rat) / (totalFrames : Rat)) * 100

/-- The marker `AnomalyTimeline` renders for one anomaly (lines 26–36). -/
def anomalyMarker (totalFrames : Int) (a : Anomaly) : AnomalyMarker :=
  { position := anomalyPosition totalFrames a
    title := a.description ++ " (Frame " ++ toString a.frame_index ++ ")" }

/-- `AnomalyTimeline` from src/frontend/components/AnomalyTimeline.tsx:
`if (!anomalies || anomalies.length === 0) return null;` then one marker per
anomaly, produced by mapping over the input array in order.  A null `anomalies`
prop is `none`; returning `null` (rendering nothing) is `none`. -/
def AnomalyTimeline (anomalies : Option (List Anomaly)) (totalFrames : Int) :
    Option (List AnomalyMarker) :=
  match anomalies with
  | none => none
  | some as =>
    if as.length = 0 then none
    else some (as.map (anomalyMarker totalFrames))

/-- `getColor` from src/frontend/components/ActivityTrack.tsx, lines 16–21. -/
def getColor (label : String) : String :=
  if jsIncludes label "High" || jsIncludes label "Congestion" then "bg-red-500"
  else if jsIncludes label "Moderate" then "bg-yellow-500"
  else if jsIncludes label "Light" then "bg-green-500"
  else "bg-gray-400"

/-- One band div rendered by `ActivityTrack`: CSS width in percent, color
class, and tooltip title. -/
structure ActivityBand where
  width : Rat
  color : String
  title : String
deriving DecidableEq, Repr

/-- `const width = ((activity.end_frame - activity.start_frame) / totalFrames) * 100;`
(src/frontend/components/ActivityTrack.tsx, line 34). -/
def activityWidth (totalFrames : Int) (a : Activity) : Rat :=
  (((a.end_frame - a.start_frame : Int) : Rat) / (totalFrames : Rat)) * 100

/-- The band `ActivityTrack` renders for one activity (lines 33–43). -/
def activityBand (totalFrames : Int) (a : Activity) : ActivityBand :=
  { width := activityWidth totalFrames a
    color := getColor a.label
    title := a.label ++ " (" ++ toString a.start_frame ++ "-" ++ toString a.end_frame ++ ")" }

/-- `ActivityTrack` from src/frontend/components/ActivityTrack.tsx:
`if (!activities || activities.length === 0) return null;` then one band per
activity, mapped over the input array in order and concatenated left to right
in a flex row. -/
def ActivityTrack (activities : Option (List Activity)) (totalFrames : Int) :
    Option (List ActivityBand) :=
  match activities with
  | none => none
  | some as =>
    if as.length = 0 then none
    else some (as.map (activityBand totalFrames))

/-- `SegmentationStats` record from `src/unnamed/part_005` (lib/api);
`objects_per_class` as an association list. -/
structure SegmentationStats where
  total_frames : Int
  total_objects : Int
  avg_objects_per_frame : Rat
  processing_time_seconds : Rat
  objects_per_class : List (String × Int)
deriving DecidableEq, Repr

/-- Response of `api.getSegmentationStatus` (src/unnamed/part_005, lines 160–167):
`{status, stats?, progress?, status_message?}`. -/
structure PollResponse where
  status : String
  stats : Option SegmentationStats
  progress : Option Int
  status_message : Option String
deriving DecidableEq, Repr

/-- The annotate-page state touched by the segmentation poll loop
(src/unnamed/part_000): the `status`, `segmenting`, `progress`,
`statusMessage` and `stats` React state variables. -/
structure PageState where
  status : String
  segmenting : Bool
  progress : Int
  statusMessage : String
  stats : Option SegmentationStats
deriving DecidableEq, Repr

/-- The fixed reschedule delay of the poll loop:
`setTimeout(pollStatus, 1000)` (src/unnamed/part_000, line 150). -/
def pollIntervalMs : Nat := 1000

/-- JavaScript truthiness of an optional number: `undefined` and `0` are falsy. -/
def truthyInt : Option Int → Bool
  | none => false
  | some n => n != 0

/-- JavaScript truthiness of an optional string: `undefined` and `""` are falsy. -/
def truthyStr : Option String → Bool
  | none => false
  | some s => s != ""

/-- One iteration of `pollStatus` (src/unnamed/part_000, lines 124–161) on a
successful response: update `progress`/`statusMessage` when truthy, then branch
on the reported status.  Returns the new page state and `some delay` when the
loop reschedules itself (`setTimeout(pollStatus, 1000)`), `none` when it stops. -/
def pollStep (s : PageState) (r : PollResponse) : PageState × Option Nat :=
  let s1 := if truthyInt r.progress then { s with progress := r.progress.getD 0 } else s
  let s2 := if truthyStr r.status_message
            then { s1 with statusMessage := (r.status_message).getD "" } else s1
  if r.status = "segmented" then
    ({ s2 with stats := r.stats, status := "segmented", segmenting := false, progress := 100 },
     none)
  else if r.status = "failed" then
    ({ s2 with status := "error", segmenting := false }, none)
  else
    (s2, some pollIntervalMs)

/-- The recursive poll loop run against a stream of responses: each consumed
response is one poll.  Returns the final page state and the list of responses
the loop actually observed; the loop keeps consuming only while `pollStep`
reschedules. -/
def runPollTrace (s : PageState) : List PollResponse → PageState × List PollResponse
  | [] => (s, [])
  | r :: rs =>
    match pollStep s r with
    | (s1, none) => (s1, [r])
    | (s1, some _) =>
      let (s2, tr) := runPollTrace s1 rs
      (s2, r :: tr)

/-- The delays the loop schedules while running against a stream of responses. -/
def runPollDelays (s : PageState) : List PollResponse → List Nat
  | [] => []
  | r :: rs =>
    match pollStep s r with
    | (_, none) => []
    | (s1, some d) => d :: runPollDelays s1 rs

/-- The poll loop as observed by a consumer that may cancel: `cancelled n` says
the consumer has abandoned interest before the n-th rescheduled poll fires.
The source registers each timer with a bare `setTimeout(pollStatus, 1000)`
(src/unnamed/part_000, lines 150 and 163), never stores or clears a timer id
(no `clearTimeout` and no effect-cleanup anywhere in the sources), and
`pollStatus` performs no cancellation check, so the timer fires and the poll
proceeds whatever the consumer does: the cancellation signal has no effect on
execution. -/
def runPollCancelled (_cancelled : Nat → Bool) (s : PageState)
    (rs : List PollResponse) : PageState × List PollResponse :=
  runPollTrace s rs

/-- `Project` record from `src/unnamed/part_005` (lib/api). -/
structure Project where
  project_id : String
  video_filename : String
  status : String
  created_at : String
  has_segmentation : Bool
  has_analysis : Bool
  has_reports : Bool
deriving DecidableEq, Repr

/-- The error taxonomy of the orchestration layer as named by the spec. -/
inductive ApiFailure where
  | InvalidState
  | ValidationError
  | ConflictError
  | UpstreamError
deriving DecidableEq, Repr

/-- A created analysis job: the submitted parameters. -/
structure AnalysisJob where
  project_id : String
  analysis_type : String
  model : String
  mode : String
deriving DecidableEq, Repr

/-- Modelled from the spec: the backend `startAnalysis` gate is not among the
frontend sources (only its caller `ApiClient.analyzeVideo` is, which posts to
`/analyze/:projectId`).  The spec states: "startAnalysis(projectId) fails with
InvalidState unless has_segmentation is true"; on success an analysis job with
the submitted parameters is created. -/
def startAnalysis (p : Project) (analysisType model mode : String) :
    Except ApiFailure AnalysisJob :=
  if p.has_segmentation then
    Except.ok { project_id := p.project_id, analysis_type := analysisType,
                model := model, mode := mode }
  else
    Except.error ApiFailure.InvalidState

/-- The analyze page's project fetch keeps only segmented projects:
`setProjects(data.filter((p) => p.has_segmentation))`
(src/unnamed/part_002, line 33). -/
def fetchProjectsFilter (ps : List Project) : List Project :=
  ps.filter (fun p => p.has_segmentation)

/-- Severity tier of an activity label, as the spec describes it. -/
inductive Tier where
  | top
  | mid
  | low
  | neutral
deriving DecidableEq, Repr

/-- The color class each tier renders as. -/
def tierColor : Tier → String
  | Tier.top => "bg-red-500"
  | Tier.mid => "bg-yellow-500"
  | Tier.low => "bg-green-500"
  | Tier.neutral => "bg-gray-400"

/-- The ordered keyword-priority list of the spec: "High"/"Congestion" map to
the top tier, "Moderate" to mid, "Light" to low. -/
def tierKeywords : List (String × Tier) :=
  [("High", Tier.top), ("Congestion", Tier.top), ("Moderate", Tier.mid), ("Light", Tier.low)]

/-- Tier selection as worded by the spec: a case-sensitive substring match of
the label against the ordered keyword list, the first matching keyword in
priority order winning, with a neutral default when none matches.  Stated
independently of `getColor` so the two can be compared. -/
def specTier (label : String) : Tier :=
  match (tierKeywords.filter (fun kt => jsIncludes label kt.1)).head? with
  | some kt => kt.2
  | none => Tier.neutral

/- Concrete fixtures used by witnesses and counterexamples. -/

/-- An anomaly at frame 50 (spec scenario B). -/
def anomaly50 : Anomaly :=
  { frame_index := 50, timestamp := 0, description := "loitering", severity := 2 }

/-- An anomaly at frame 10. -/
def anomaly10 : Anomaly :=
  { frame_index := 10, timestamp := 0, description := "wrong way", severity := 1 }

/-- An anomaly past the end of the video: frame 200 of 100. -/
def anomaly200 : Anomaly :=
  { frame_index := 200, timestamp := 0, description := "ghost", severity := 3 }

/-- Spec scenario C, first activity: frames 0–25, "Light". -/
def activityLight : Activity :=
  { start_frame := 0, end_frame := 25, label := "Light", confidence := 1 }

/-- Spec scenario C, second activity: frames 25–100, "High Congestion". -/
def activityHigh : Activity :=
  { start_frame := 25, end_frame := 100, label := "High Congestion", confidence := 1 }

/-- A full-length activity, used to exhibit overlapping bands. -/
def activityFull : Activity :=
  { start_frame := 0, end_frame := 100, label := "Moderate", confidence := 1 }

/-- A page state mid-segmentation, before any progress report. -/
def pageState0 : PageState :=
  { status := "segmenting", segmenting := true, progress := 0, statusMessage := "", stats := none }

/-- A non-terminal poll response. -/
def pendingResponse : PollResponse :=
  { status := "processing", stats := none, progress := some 40, status_message := some "working" }

/-- A terminal success response. -/
def segmentedResponse : PollResponse :=
  { status := "segmented",
    stats := some { total_frames := 100, total_objects := 7, avg_objects_per_frame := 1,
                    processing_time_seconds := 3, objects_per_class := [("car", 7)] },
    progress := some 100, status_message := none }

/-- A terminal failure response. -/
def failedResponse : PollResponse :=
  { status := "failed", stats := none, progress := none, status_message := none }

/-! Helper lemmas shared by the claim theorems. -/

/-- A nonempty anomaly list renders one marker per anomaly, in input order. -/
theorem anomalyTimeline_cons (a : Anomaly) (as : List Anomaly) (tf : Int) :
    AnomalyTimeline (some (a :: as)) tf = some ((a :: as).map (anomalyMarker tf)) := by
  simp [AnomalyTimeline]

/-- A nonempty activity list renders one band per activity, in input order. -/
theorem activityTrack_cons (a : Activity) (as : List Activity) (tf : Int) :
    ActivityTrack (some (a :: as)) tf = some ((a :: as).map (activityBand tf)) := by
  simp [ActivityTrack]

/-- The loop reschedules exactly on non-terminal statuses, always with the
fixed 1000 ms delay. -/
theorem pollStep_snd (s : PageState) (r : PollResponse) :
    (pollStep s r).2 =
      if r.status = "segmented" ∨ r.status = "failed" then none else some pollIntervalMs := by
  by_cases h1 : r.status = "segmented" <;> by_cases h2 : r.status = "failed" <;>
    simp [pollStep, h1, h2]

/-- When a poll does not reschedule, the loop stops with that poll as its last
observation, whatever responses would have followed. -/
theorem runPollTrace_stop (s : PageState) (r : PollResponse) (rs : List PollResponse)
    (h : (pollStep s r).2 = none) :
    runPollTrace s (r :: rs) = ((pollStep s r).1, [r]) := by
  rcases hps : pollStep s r with ⟨s1, d⟩
  rw [hps] at h
  simp only at h
  subst h
  simp [runPollTrace, hps]

/-- When a poll reschedules, the loop continues into the remaining responses. -/
theorem runPollTrace_continue (s : PageState) (r : PollResponse) (rs : List PollResponse)
    (d : Nat) (h : (pollStep s r).2 = some d) :
    runPollTrace s (r :: rs) =
      ((runPollTrace (pollStep s r).1 rs).1, r :: (runPollTrace (pollStep s r).1 rs).2) := by
  rcases hps : pollStep s r with ⟨s1, d'⟩
  rw [hps] at h
  simp only at h
  subst h
  simp [runPollTrace, hps]

/-- A non-rescheduling poll schedules no delay at all. -/
theorem runPollDelays_stop (s : PageState) (r : PollResponse) (rs : List PollResponse)
    (h : (pollStep s r).2 = none) :
    runPollDelays s (r :: rs) = [] := by
  rcases hps : pollStep s r with ⟨s1, d⟩
  rw [hps] at h
  simp only at h
  subst h
  simp [runPollDelays, hps]

/-- Every delay the loop ever schedules is the fixed 1000 ms interval. -/
theorem runPollDelays_fixed (rs : List PollResponse) :
    ∀ (s : PageState) (d : Nat), d ∈ runPollDelays s rs → d = pollIntervalMs := by
  induction rs with
  | nil => intro s d hd; simp [runPollDelays] at hd
  | cons r rs ih =>
    intro s d hd
    rcases hps : pollStep s r with ⟨s1, dl⟩
    have hsnd := pollStep_snd s r
    rw [hps] at hsnd
    simp only at hsnd
    by_cases ht : r.status = "segmented" ∨ r.status = "failed"
    · rw [if_pos ht] at hsnd
      subst hsnd
      simp [runPollDelays, hps] at hd
    · rw [if_neg ht] at hsnd
      subst hsnd
      simp [runPollDelays, hps] at hd
      rcases hd with hd | hd
      · exact hd
      · exact ih s1 d hd

/-! The claims. -/

/-- C1: for every totalFrames > 0 and every anomaly with
0 ≤ frame_index ≤ totalFrames, the rendered percentage
(frame_index / totalFrames) * 100 lies in [0, 100], equivalently the fraction
lies in [0, 1]; and with totalFrames = 100 and frame_index = 50 the fraction
is exactly 1/2. -/
theorem anomaly_position_in_range (tf : Int) (a : Anomaly)
    (htf : 0 < tf) (h0 : 0 ≤ a.frame_index) (hle : a.frame_index ≤ tf) :
    (0 ≤ anomalyPosition tf a ∧ anomalyPosition tf a ≤ 100) ∧
      anomalyPosition 100 anomaly50 / 100 = 1 / 2 := by
  have htf' : (0 : Rat) < (tf : Rat) := by exact_mod_cast htf
  have h0' : (0 : Rat) ≤ ((a.frame_index : Int) : Rat) := by exact_mod_cast h0
  have hle' : ((a.frame_index : Int) : Rat) ≤ (tf : Rat) := by exact_mod_cast hle
  refine ⟨⟨?_, ?_⟩, ?_⟩
  · exact mul_nonneg (div_nonneg h0' htf'.le) (by norm_num)
  · have hdiv : ((a.frame_index : Int) : Rat) / (tf : Rat) ≤ 1 := (div_le_one htf').mpr hle'
    calc anomalyPosition tf a = (((a.frame_index : Int) : Rat) / (tf : Rat)) * 100 := rfl
      _ ≤ 1 * 100 := mul_le_mul_of_nonneg_right hdiv (by norm_num)
      _ = 100 := by norm_num
  · norm_num [anomalyPosition, anomaly50]

/-- Witness for C1: the bounds hold concretely at totalFrames = 100 for the
frame-50 anomaly of scenario B. -/
theorem anomaly_position_in_range_witness :
    (0 ≤ anomalyPosition 100 anomaly50 ∧ anomalyPosition 100 anomaly50 ≤ 100) ∧
      anomalyPosition 100 anomaly50 / 100 = 1 / 2 :=
  anomaly_position_in_range 100 anomaly50 (by norm_num)
    (by norm_num [anomaly50]) (by norm_num [anomaly50])

/-- C2 counterexample: the code clamps nothing and raises nothing: the
anomaly at frame 200 of totalFrames = 100 renders at 200 percent (fraction 2,
outside [0, 1]), and with totalFrames = 0 the component still renders markers
instead of failing with DegenerateInput. -/
theorem anomaly_clamp_cex :
    anomalyPosition 100 anomaly200 = 200 ∧
      ¬ anomalyPosition 100 anomaly200 ≤ 100 ∧
      (AnomalyTimeline (some [anomaly50]) 0).isSome = true := by
  refine ⟨?_, ?_, ?_⟩
  · norm_num [anomalyPosition, anomaly200]
  · norm_num [anomalyPosition, anomaly200]
  · simp [AnomalyTimeline]

/-- C2 amended: the anomaly-position computation applies no clamping and has
no failure path: for every nonempty anomaly list and every totalFrames
(including totalFrames ≤ 0, for which no DegenerateInput error exists) the
component renders one marker per anomaly whose position is exactly
(frame_index / totalFrames) * 100, which can lie outside [0, 100]. -/
theorem anomaly_position_unclamped (a : Anomaly) (as : List Anomaly) (tf : Int) :
    (AnomalyTimeline (some (a :: as)) tf).isSome = true ∧
      (anomalyMarker tf a).position = ((a.frame_index : Rat) / (tf : Rat)) * 100 ∧
      anomalyPosition 100 anomaly200 = 200 := by
  refine ⟨by simp [AnomalyTimeline], rfl, by norm_num [anomalyPosition, anomaly200]⟩

/-- C10: a null or empty event list renders nothing — both aggregators return
null before any position or width is computed — for every totalFrames,
including 0. -/
theorem empty_events_render_nothing (tf : Int) :
    AnomalyTimeline none tf = none ∧ AnomalyTimeline (some []) tf = none ∧
      ActivityTrack none tf = none ∧ ActivityTrack (some []) tf = none := by
  exact ⟨rfl, by simp [AnomalyTimeline], rfl, by simp [ActivityTrack]⟩

/-- C3: starting analysis on a project without segmentation always fails with
InvalidState, whatever the other fields and parameters, and creates no
analysis job; the analyze page moreover filters such projects out of its
selection list. -/
theorem startAnalysis_requires_segmentation (p : Project)
    (analysisType model mode : String) (h : p.has_segmentation = false) :
    startAnalysis p analysisType model mode = Except.error ApiFailure.InvalidState ∧
      (∀ job : AnalysisJob, startAnalysis p analysisType model mode ≠ Except.ok job) ∧
      ∀ ps : List Project, p ∉ fetchProjectsFilter ps := by
  have h1 : startAnalysis p analysisType model mode = Except.error ApiFailure.InvalidState := by
    simp [startAnalysis, h]
  refine ⟨h1, ?_, ?_⟩
  · intro job hj
    rw [h1] at hj
    exact Except.noConfusion hj
  · intro ps hp
    simp [fetchProjectsFilter, List.mem_filter, h] at hp

/-- A project that was uploaded but never segmented. -/
def projectNoSeg : Project :=
  { project_id := "4f1c2b7a", video_filename := "street.mp4", status := "uploaded",
    created_at := "2025-01-01", has_segmentation := false, has_analysis := false,
    has_reports := false }

/-- Witness for C3 at a concrete unsegmented project and the analyze page's
default parameters. -/
theorem startAnalysis_requires_segmentation_witness :
    startAnalysis projectNoSeg "generic" "deepseek/deepseek-chat-free" "generic" =
        Except.error ApiFailure.InvalidState ∧
      (∀ job : AnalysisJob,
        startAnalysis projectNoSeg "generic" "deepseek/deepseek-chat-free" "generic" ≠
          Except.ok job) ∧
      ∀ ps : List Project, projectNoSeg ∉ fetchProjectsFilter ps :=
  startAnalysis_requires_segmentation projectNoSeg "generic" "deepseek/deepseek-chat-free"
    "generic" rfl

/-- C4: the activity aggregator renders one band per activity in input array
order with width exactly ((end_frame - start_frame) / totalFrames) * 100,
never clamped or renormalized: scenario C gives widths [25, 75] with colors
[green, red]; two overlapping full-length activities give widths [100, 100],
whose sum exceeds 100; and an input not sorted by start_frame keeps its input
order. -/
theorem activity_bands_widths_in_order (a : Activity) (as : List Activity) (tf : Int) :
    (ActivityTrack (some (a :: as)) tf = some ((a :: as).map (activityBand tf)) ∧
        (activityBand tf a).width =
          (((a.end_frame - a.start_frame : Int) : Rat) / (tf : Rat)) * 100) ∧
      (ActivityTrack (some [activityLight, activityHigh]) 100).map
          (List.map ActivityBand.width) = some [25, 75] ∧
      (ActivityTrack (some [activityLight, activityHigh]) 100).map
          (List.map ActivityBand.color) = some ["bg-green-500", "bg-red-500"] ∧
      (ActivityTrack (some [activityFull, activityFull]) 100).map
          (List.map ActivityBand.width) = some [100, 100] ∧
      ¬ (100 : Rat) + 100 ≤ 100 ∧
      (ActivityTrack (some [activityHigh, activityLight]) 100).map
          (List.map ActivityBand.width) = some [75, 25] := by
  refine ⟨⟨activityTrack_cons a as tf, rfl⟩, ?_, ?_, ?_, by norm_num, ?_⟩
  · simp [ActivityTrack, activityBand, activityWidth, activityLight, activityHigh]
  · simp [ActivityTrack, activityBand, activityLight, activityHigh]
    constructor <;> decide
  · simp [ActivityTrack, activityBand, activityWidth, activityFull]
  · simp [ActivityTrack, activityBand, activityWidth, activityLight, activityHigh]

/-- C5: `getColor` realizes the spec's tier rule: a case-sensitive substring
match against the ordered keyword list High, Congestion (top), Moderate (mid),
Light (low), first match winning, neutral otherwise; a label containing both
"High" and "Light" is top tier, and lowercase "light" matches nothing. -/
theorem getColor_matches_spec_tiers :
    (∀ label : String, getColor label = tierColor (specTier label)) ∧
      getColor "High Light" = "bg-red-500" ∧ getColor "light" = "bg-gray-400" := by
  refine ⟨?_, by decide, by decide⟩
  intro label
  cases h1 : jsIncludes label "High" <;> cases h2 : jsIncludes label "Congestion" <;>
    cases h3 : jsIncludes label "Moderate" <;> cases h4 : jsIncludes label "Light" <;>
      simp [getColor, specTier, tierKeywords, tierColor, h1, h2, h3, h4]

/-- C6 counterexample: the input [frame 50, frame 10] renders its markers at
positions [50, 10] — the input order — although ascending frame_index order
would require 10 before 50: the aggregator does not sort. -/
theorem anomaly_order_cex :
    (AnomalyTimeline (some [anomaly50, anomaly10]) 100).map
        (List.map AnomalyMarker.position) = some [50, 10] ∧
      ¬ (50 : Rat) ≤ 10 := by
  constructor
  · simp [AnomalyTimeline, anomalyMarker, anomalyPosition, anomaly50, anomaly10]
  · norm_num

/-- C6 amended: the aggregator renders anomalies in input array order, without
any defensive sort; it is right that nothing is merged or deduplicated — every
anomaly yields its own marker, and a duplicated frame index yields two
markers. -/
theorem anomaly_order_input_order (a : Anomaly) (as : List Anomaly) (tf : Int) :
    AnomalyTimeline (some (a :: as)) tf = some ((a :: as).map (anomalyMarker tf)) ∧
      ((a :: as).map (anomalyMarker tf)).length = (a :: as).length ∧
      (AnomalyTimeline (some [anomaly50, anomaly50]) 100).map List.length = some 2 := by
  exact ⟨anomalyTimeline_cons a as tf, by simp, by simp [AnomalyTimeline]⟩

/-- C7: a poll that observes a terminal status (segmented or failed) schedules
no further poll: the loop stops with that poll as its last observation and no
delay is scheduled, whatever responses would have followed; when the terminal
status is failed, the last observed project status is "failed"; every
non-terminal poll reschedules on the fixed 1000 ms interval, and every delay
the loop ever schedules is that interval, which is at least 500 ms. -/
theorem poll_loop_terminal (s : PageState) (r : PollResponse) (rs : List PollResponse) :
    (r.status = "segmented" ∨ r.status = "failed" →
        runPollTrace s (r :: rs) = ((pollStep s r).1, [r]) ∧
          runPollDelays s (r :: rs) = []) ∧
      (r.status = "failed" →
        (runPollTrace s (r :: rs)).2.map PollResponse.status = ["failed"]) ∧
      (r.status ≠ "segmented" → r.status ≠ "failed" →
        (pollStep s r).2 = some pollIntervalMs) ∧
      (∀ d ∈ runPollDelays s (r :: rs), d = pollIntervalMs) ∧
      500 ≤ pollIntervalMs := by
  refine ⟨?_, ?_, ?_, fun d hd => runPollDelays_fixed (r :: rs) s d hd, by norm_num [pollIntervalMs]⟩
  · intro ht
    have h : (pollStep s r).2 = none := by rw [pollStep_snd, if_pos ht]
    exact ⟨runPollTrace_stop s r rs h, runPollDelays_stop s r rs h⟩
  · intro hf
    have h : (pollStep s r).2 = none := by rw [pollStep_snd, if_pos (Or.inr hf)]
    rw [runPollTrace_stop s r rs h]
    simp [hf]
  · intro h1 h2
    rw [pollStep_snd, if_neg]
    simp [h1, h2]

/-- Witness for C7: against the stream [failed, pending], the loop ends at the
failed poll, observes only it, schedules nothing, and its last observed
project status is "failed". -/
theorem poll_loop_terminal_witness :
    (runPollTrace pageState0 [failedResponse, pendingResponse] =
        ((pollStep pageState0 failedResponse).1, [failedResponse]) ∧
      runPollDelays pageState0 [failedResponse, pendingResponse] = []) ∧
      (runPollTrace pageState0 [failedResponse, pendingResponse]).2.map PollResponse.status =
        ["failed"] :=
  ⟨(poll_loop_terminal pageState0 failedResponse [pendingResponse]).1 (Or.inr rfl),
    (poll_loop_terminal pageState0 failedResponse [pendingResponse]).2.1 rfl⟩

/-- C8 counterexample: the consumer cancels before any rescheduled poll fires,
yet the loop still performs all three polls — its trace has length 3, not at
most the one poll already in flight: cancellation schedules polls anyway. -/
theorem poll_cancel_cex :
    ((runPollCancelled (fun _ => true) pageState0
        [pendingResponse, pendingResponse, segmentedResponse]).2).length = 3 ∧
      ¬ ((runPollCancelled (fun _ => true) pageState0
        [pendingResponse, pendingResponse, segmentedResponse]).2).length ≤ 1 := by
  constructor <;>
    simp [runPollCancelled, runPollTrace, pollStep, pendingResponse, segmentedResponse,
      truthyInt, truthyStr]

/-- C8 amended: the poll loop exposes no cancel token at all — the source
never stores or clears a timer id — so its behavior is independent of any
consumer cancellation signal: under every cancellation signal a non-terminal
poll still continues the loop into the remaining responses. -/
theorem poll_cancel_no_effect (c c' : Nat → Bool) (s : PageState) (r : PollResponse)
    (rs : List PollResponse) (h1 : r.status ≠ "segmented") (h2 : r.status ≠ "failed") :
    runPollCancelled c s (r :: rs) = runPollCancelled c' s (r :: rs) ∧
      (runPollCancelled c s (r :: rs)).2 = r :: (runPollTrace (pollStep s r).1 rs).2 := by
  have h : (pollStep s r).2 = some pollIntervalMs := by
    rw [pollStep_snd, if_neg]
    simp [h1, h2]
  refine ⟨rfl, ?_⟩
  show (runPollTrace s (r :: rs)).2 = r :: (runPollTrace (pollStep s r).1 rs).2
  rw [runPollTrace_continue s r rs pollIntervalMs h]

/-- Witness for C8's amended theorem: a pending poll continues the loop under
an immediately-cancelling signal just as under a never-cancelling one. -/
theorem poll_cancel_no_effect_witness :
    runPollCancelled (fun _ => true) pageState0 [pendingResponse, segmentedResponse] =
        runPollCancelled (fun _ => false) pageState0 [pendingResponse, segmentedResponse] ∧
      (runPollCancelled (fun _ => true) pageState0 [pendingResponse, segmentedResponse]).2 =
        pendingResponse ::
          (runPollTrace (pollStep pageState0 pendingResponse).1 [segmentedResponse]).2 :=
  poll_cancel_no_effect (fun _ => true) (fun _ => false) pageState0 pendingResponse
    [segmentedResponse] (by decide) (by decide)

/-- C9 counterexample: a poll reporting progress 150 stores 150, and one
reporting -5 stores -5 — the consumer applies no clamping to [0, 100]. -/
theorem progress_clamp_cex :
    (pollStep pageState0
        { status := "processing", stats := none, progress := some 150,
          status_message := none }).1.progress = 150 ∧
      ¬ (pollStep pageState0
        { status := "processing", stats := none, progress := some 150,
          status_message := none }).1.progress ≤ 100 ∧
      (pollStep pageState0
        { status := "processing", stats := none, progress := some (-5),
          status_message := none }).1.progress = -5 ∧
      ¬ (0 : Int) ≤ (pollStep pageState0
        { status := "processing", stats := none, progress := some (-5),
          status_message := none }).1.progress := by
  refine ⟨by decide, by decide, by decide, by decide⟩

/-- C9 amended: the consumer stores any nonzero reported progress exactly as
reported, with no clamping — values below 0 or above 100 included — while a
zero or absent report leaves the previous value unchanged (and observing the
terminal "segmented" forces progress to 100). -/
theorem progress_stored_unclamped (s : PageState) (p : Int) (st : Option SegmentationStats)
    (m : Option String) (stat : String) (hp : p ≠ 0) (hs : stat ≠ "segmented") :
    (pollStep s
        { status := stat, stats := st, progress := some p,
          status_message := m }).1.progress = p ∧
      (pollStep s
        { status := stat, stats := st, progress := some 0,
          status_message := m }).1.progress = s.progress ∧
      (pollStep s
        { status := stat, stats := st, progress := none,
          status_message := m }).1.progress = s.progress ∧
      (pollStep s
        { status := "segmented", stats := st, progress := some p,
          status_message := m }).1.progress = 100 := by
  cases htm : truthyStr m <;> by_cases hf : stat = "failed" <;>
    simp [pollStep, truthyInt, htm, hf, hs, hp]

/-- Witness for C9's amended theorem: an out-of-range report of 150 on a
pending poll is stored as 150, while a zero report and an absent report each
leave the prior value. -/
theorem progress_stored_unclamped_witness :
    (pollStep pageState0
        { status := "processing", stats := none, progress := some 150,
          status_message := none }).1.progress = 150 ∧
      (pollStep pageState0
        { status := "processing", stats := none, progress := some 0,
          status_message := none }).1.progress = pageState0.progress ∧
      (pollStep pageState0
        { status := "processing", stats := none, progress := none,
          status_message := none }).1.progress = pageState0.progress ∧
      (pollStep pageState0
        { status := "segmented", stats := none, progress := some 150,
          status_message := none }).1.progress = 100 :=
  progress_stored_unclamped pageState0 150 none none "processing" (by decide) (by decide)

end Ciousten
